import Mathlib

/-!
Verification of the classification and aggregation engine of the Orion
optimization tool (src/tools/optimize.py).  The Python code is shallowly
embedded: each regex rule table, the per-line classifier, the ELF-section
analyzer, the hotspot density analyzer and the report synthesizer are
translated into executable Lean definitions, and the spec claims are
settled as theorems about those definitions.
-/

namespace Orion

/-- Python whitespace characters as used by str.strip, str.split and
the regex class backslash-s (ASCII subset; these inputs are source code). -/
def isPySpace (c : Char) : Bool :=
  c = ' ' || c = '\t' || c = '\n' || c = '\r' || c = '\x0b' || c = '\x0c'

/-- Regex word characters (ASCII subset of the Python class backslash-w). -/
def isWordChar (c : Char) : Bool :=
  c.isAlphanum || c = '_'

/-- Hexadecimal digit test, as in the regex class [0-9a-fA-F]. -/
def isHexChar (c : Char) : Bool :=
  c.isDigit || ('a' ≤ c && c ≤ 'f') || ('A' ≤ c && c ≤ 'F')

/-- Python str.strip(): drop leading and trailing whitespace. -/
def pyStrip (s : String) : String :=
  String.mk (((s.toList.dropWhile isPySpace).reverse.dropWhile isPySpace).reverse)

/-- Python substring containment, as in the expression pat in s. -/
def strContains (s pat : String) : Bool :=
  (List.range (s.toList.length + 1)).any (fun p => pat.toList.isPrefixOf (s.toList.drop p))

/-- Split a character list at every character satisfying p, keeping empty
pieces, as Python str.split with an explicit separator does. -/
def splitOnPred (p : Char → Bool) : List Char → List (List Char)
  | [] => [[]]
  | x :: xs =>
    if p x then [] :: splitOnPred p xs
    else
      match splitOnPred p xs with
      | [] => [[x]]
      | g :: gs => (x :: g) :: gs

/-- Python content.split with separator newline: keeps empty lines, and the
empty string yields one empty line. -/
def pyLines (s : String) : List String :=
  (splitOnPred (fun c => c = '\n') s.toList).map String.mk

/-- Python str.split() with no argument: split on whitespace runs,
dropping empty fields. -/
def pySplitWs (s : String) : List String :=
  (splitOnPred isPySpace s.toList).filterMap
    (fun l => if l = [] then none else some (String.mk l))

/-- First-order character classes occurring in the rule regexes. -/
inductive CharCls where
  /-- a literal character -/
  | single (c : Char)
  /-- a negated single-character class such as [^;] -/
  | notChar (c : Char)
  /-- the class backslash-s -/
  | space
  /-- the class backslash-w -/
  | word
  /-- the negated class [^ backslash-w ] -/
  | notWord
  /-- the class backslash-d -/
  | digit
  /-- the class [0-9a-fA-F] -/
  | hexDigit
  /-- the dot: any character except newline -/
  | dot
deriving DecidableEq, Repr

/-- Interpretation of a character class. -/
def CharCls.test : CharCls → Char → Bool
  | .single c, x => x = c
  | .notChar c, x => !(x = c)
  | .space, x => isPySpace x
  | .word, x => isWordChar x
  | .notWord, x => !(isWordChar x)
  | .digit, x => x.isDigit
  | .hexDigit, x => isHexChar x
  | .dot, x => !(x = '\n')

/-- Abstract syntax of the regex fragment used by the rule tables:
character classes, concatenation, alternation, Kleene star, word boundary,
start and end anchors, and negative lookahead. -/
inductive Re where
  /-- match one character of the class -/
  | cls (k : CharCls)
  /-- match the empty string -/
  | eps
  /-- concatenation -/
  | seq (a b : Re)
  /-- ordered alternation, left branch preferred -/
  | alt (a b : Re)
  /-- greedy Kleene star -/
  | star (a : Re)
  /-- the zero-width word boundary -/
  | bound
  /-- the start-of-string anchor -/
  | bol
  /-- the end-of-string anchor (end, or just before a final newline) -/
  | eol
  /-- zero-width negative lookahead -/
  | nla (a : Re)
deriving DecidableEq, Repr

/-- Sequence a list of regexes. -/
def reSeq (l : List Re) : Re :=
  l.foldr Re.seq Re.eps

/-- A literal character as a regex. -/
def chr (c : Char) : Re :=
  Re.cls (.single c)

/-- A literal string as a regex. -/
def lit (s : String) : Re :=
  reSeq (s.toList.map chr)

/-- One-or-more repetition. -/
def rePlus (r : Re) : Re :=
  Re.seq r (Re.star r)

/-- Whether the character at index p of the text is a word character
(out-of-range counts as a non-word position). -/
def isWordAt (full : List Char) (p : Nat) : Bool :=
  match full.get? p with
  | some c => isWordChar c
  | none => false

/-- Word-boundary test at index p, as the regex token backslash-b. -/
def atBoundary (full : List Char) (p : Nat) : Bool :=
  (if p = 0 then false else isWordAt full (p - 1)) != isWordAt full p

/-- End-anchor test at index p: end of text, or just before a final
newline, as the Python dollar anchor without MULTILINE. -/
def atEol (full : List Char) (p : Nat) : Bool :=
  p = full.length || (p + 1 = full.length && full.get? p = some '\n')

/-- Greedy star iteration: given the end positions of one copy of the
body from a position, enumerate end positions of any number of copies,
deeper iterations first (matching backtracking priority); iterations that
consume no character are cut, as Python does.  Fuel bounds the number of
iterations; body matches strictly advance, so text length suffices. -/
def starLoop (g : Nat → List Nat) : Nat → Nat → List Nat
  | 0, p => [p]
  | fuel + 1, p =>
    (((g p).filter (fun q => decide (p < q))).flatMap (fun q => starLoop g fuel q)) ++ [p]

/-- All end positions of a match of the regex starting at index p of the
text, in backtracking priority order (so the head is the end position that
the Python engine reports). -/
def ends (full : List Char) : Re → Nat → List Nat
  | .cls k, p =>
    match full.get? p with
    | some c => if k.test c then [p + 1] else []
    | none => []
  | .eps, p => [p]
  | .seq a b, p => (ends full a p).flatMap (fun q => ends full b q)
  | .alt a b, p => ends full a p ++ ends full b p
  | .star a, p => starLoop (fun q => ends full a q) (full.length + 1) p
  | .bound, p => if atBoundary full p then [p] else []
  | .bol, p => if p = 0 then [p] else []
  | .eol, p => if atEol full p then [p] else []
  | .nla a, p => if (ends full a p).isEmpty then [p] else []

/-- Whether some match of the regex starts at index p. -/
def matchesAt (full : List Char) (r : Re) (p : Nat) : Bool :=
  !(ends full r p).isEmpty

/-- Python re.search as a Boolean: does the regex match anywhere? -/
def reSearch (r : Re) (s : String) : Bool :=
  (List.range (s.toList.length + 1)).any (fun p => matchesAt s.toList r p)

/-- One scanning step of Python re.findall: end of the reported match at
index p, if any. -/
def matchEndAt (full : List Char) (r : Re) (p : Nat) : Option Nat :=
  (ends full r p).head?

/-- Count the non-overlapping leftmost matches from position p on, as
Python re.findall does: resume after each match, advance one character
after a failure or an empty match. -/
def scanFrom (full : List Char) (r : Re) : Nat → Nat → Nat
  | 0, _ => 0
  | fuel + 1, p =>
    if full.length < p then 0
    else
      match matchEndAt full r p with
      | some e =>
        if p < e then 1 + scanFrom full r fuel e
        else if p = full.length then 1
        else 1 + scanFrom full r fuel (p + 1)
      | none =>
        if p = full.length then 0
        else scanFrom full r fuel (p + 1)

/-- Python len(re.findall(r, s)). -/
def countMatches (r : Re) (s : String) : Nat :=
  scanFrom s.toList r (s.toList.length + 2) 0

/-- An opening brace character. -/
def lbrace : Char := Char.ofNat 123

/-- A closing brace character. -/
def rbrace : Char := Char.ofNat 125

/-- Shorthand for the starred space class. -/
def wsStar : Re := Re.star (Re.cls .space)

/-- Shorthand for the negated single-character star, as in [^;]* . -/
def notStar (c : Char) : Re := Re.star (Re.cls (.notChar c))

/-- Shorthand for the dot-star. -/
def dotStar : Re := Re.star (Re.cls .dot)

/-!
The performance rule table of OrionOptimizer._check_performance_patterns.
Each regex of the source is rendered as a Re term; the original pattern
text is quoted in the comment above each rule.
-/

/-- Pattern: backslash-b malloc backslash-s* ( -/
def perfRe1 : Re := reSeq [Re.bound, lit "malloc", wsStar, chr '(']

/-- Pattern: backslash-b sprintf backslash-s* ( -/
def perfRe2 : Re := reSeq [Re.bound, lit "sprintf", wsStar, chr '(']

/-- Pattern: backslash-b strcpy backslash-s* ( -/
def perfRe3 : Re := reSeq [Re.bound, lit "strcpy", wsStar, chr '(']

/-- Pattern: backslash-b strcat backslash-s* ( -/
def perfRe4 : Re := reSeq [Re.bound, lit "strcat", wsStar, chr '(']

/-- Pattern: for backslash-s* \( [^;]* ; [^;]* \+\+ [^;]* ; [^)]* \)
backslash-s* open-brace [^ close-brace ]* malloc -/
def perfRe5 : Re :=
  reSeq [lit "for", wsStar, chr '(', notStar ';', chr ';', notStar ';', lit "++",
         notStar ';', chr ';', notStar ')', chr ')', wsStar, chr lbrace,
         notStar rbrace, lit "malloc"]

/-- Pattern: backslash-b printf backslash-s* \( .* double-quote backslash-s*
backslash backslash n double-quote backslash-s* \) -/
def perfRe6 : Re :=
  reSeq [Re.bound, lit "printf", wsStar, chr '(', dotStar, chr '"', wsStar,
         chr '\\', chr 'n', chr '"', wsStar, chr ')']

/-- Pattern: while backslash-s* \( 1 \) -/
def perfRe7 : Re := reSeq [lit "while", wsStar, chr '(', chr '1', chr ')']

/-- Pattern: backslash-b volatile backslash-s+ negative-lookahead(atomic) -/
def perfRe8 : Re :=
  reSeq [Re.bound, lit "volatile", rePlus (Re.cls .space), Re.nla (lit "atomic")]

/-- Pattern: backslash-b gets backslash-s* ( -/
def secRe1 : Re := reSeq [Re.bound, lit "gets", wsStar, chr '(']

/-- Pattern: backslash-b scanf backslash-s* \( [^,]* , backslash-s*
double-quote percent-s double-quote -/
def secRe2 : Re :=
  reSeq [Re.bound, lit "scanf", wsStar, chr '(', notStar ',', chr ',', wsStar,
         lit "\"%s\""]

/-- Pattern: char backslash-s+ backslash-w+ \[ backslash-d+ \] .* scanf -/
def secRe3 : Re :=
  reSeq [lit "char", rePlus (Re.cls .space), rePlus (Re.cls .word), chr '[',
         rePlus (Re.cls .digit), chr ']', dotStar, lit "scanf"]

/-- Pattern: memcpy backslash-s* \( [^,]* , [^,]* , [^)]* \+ -/
def secRe4 : Re :=
  reSeq [lit "memcpy", wsStar, chr '(', notStar ',', chr ',', notStar ',',
         chr ',', notStar ')', chr '+']

/-- Pattern: __asm__ .* cli .* -/
def secRe5 : Re := reSeq [lit "__asm__", dotStar, lit "cli", dotStar]

/-- Pattern: hash define .* \( .* \) .* backslash backslash backslash-s*
dollar-anchor -/
def secRe6 : Re :=
  reSeq [lit "#define", dotStar, chr '(', dotStar, chr ')', dotStar, chr '\\',
         wsStar, Re.eol]

/-- Pattern: caret [^/]* // .* TODO .* -/
def qualRe1 : Re :=
  reSeq [Re.bol, notStar '/', lit "//", dotStar, lit "TODO", dotStar]

/-- Pattern: caret [^/]* // .* FIXME .* -/
def qualRe2 : Re :=
  reSeq [Re.bol, notStar '/', lit "//", dotStar, lit "FIXME", dotStar]

/-- Pattern: caret [^/]* // .* HACK .* -/
def qualRe3 : Re :=
  reSeq [Re.bol, notStar '/', lit "//", dotStar, lit "HACK", dotStar]

/-- Pattern: caret backslash-s* if backslash-s* \( [^)]* \) backslash-s* ; -/
def qualRe4 : Re :=
  reSeq [Re.bol, wsStar, lit "if", wsStar, chr '(', notStar ')', chr ')',
         wsStar, chr ';']

/-- Pattern: caret backslash-s* close-brace backslash-s* else backslash-s*
open-brace [^ close-brace ]* close-brace dollar-anchor -/
def qualRe5 : Re :=
  reSeq [Re.bol, wsStar, chr rbrace, wsStar, lit "else", wsStar, chr lbrace,
         notStar rbrace, chr rbrace, Re.eol]

/-- Pattern: [^ backslash-w ] 0x [0-9a-fA-F]+ [^ backslash-w ] -/
def qualRe6 : Re :=
  reSeq [Re.cls .notWord, chr '0', chr 'x', rePlus (Re.cls .hexDigit),
         Re.cls .notWord]

/-- The performance rule table: patterns paired with their advisories,
in source order. -/
def performancePatterns : List (Re × String) :=
  [(perfRe1, "Use kmalloc instead of malloc in kernel code"),
   (perfRe2, "sprintf is unsafe, use snprintf"),
   (perfRe3, "strcpy is unsafe, use strncpy"),
   (perfRe4, "strcat is unsafe, use strncat"),
   (perfRe5, "Memory allocation in loop - consider pre-allocation"),
   (perfRe6, "Use kinfo/kwarning/kerror instead of printf"),
   (perfRe7, "Infinite loop detected - ensure proper exit conditions"),
   (perfRe8, "Consider atomic operations instead of volatile for synchronization")]

/-- The security rule table, in source order. -/
def securityPatterns : List (Re × String) :=
  [(secRe1, "gets() is unsafe, use fgets()"),
   (secRe2, "Unbounded string input, use length-limited format"),
   (secRe3, "Fixed buffer with scanf - potential overflow"),
   (secRe4, "Potential integer overflow in memcpy size"),
   (secRe5, "Disabling interrupts - ensure proper re-enabling"),
   (secRe6, "Multi-line macro without do-while")]

/-- The quality rule table, in source order. -/
def qualityPatterns : List (Re × String) :=
  [(qualRe1, "TODO comment found"),
   (qualRe2, "FIXME comment found"),
   (qualRe3, "HACK comment found"),
   (qualRe4, "Empty if statement"),
   (qualRe5, "Single-line else block could be simplified"),
   (qualRe6, "Magic number detected - consider named constant")]

/-- One classified occurrence, with the field names of the dictionaries the
Python code appends: issue holds the (stripped) offending line text and
suggestion the advisory. -/
structure Finding where
  file : String
  line : Nat
  issue : String
  suggestion : String
  severity : String
deriving DecidableEq, Repr

/-- One derived recommendation, as appended to report.suggestions. -/
structure Suggestion where
  category : String
  issue : String
  suggestion : String
  impact : String
deriving DecidableEq, Repr

/-- The OptimizationReport container: three finding sequences and the
suggestion sequence (metrics are carried separately where needed). -/
structure OptimizationReport where
  code_issues : List Finding
  performance_issues : List Finding
  security_issues : List Finding
  suggestions : List Suggestion
deriving DecidableEq, Repr

/-- Core of the three _check_*_patterns methods: strip the line, and for
every rule whose pattern matches the stripped line append one finding with
the given fixed severity.  The filter-then-map mirrors the source loop:
one independent finding per matching rule, in rule order. -/
def checkPatterns (pats : List (Re × String)) (sev fileP : String)
    (lineNum : Nat) (line : String) : List Finding :=
  (pats.filter (fun pr => reSearch pr.1 (pyStrip line))).map
    (fun pr => ⟨fileP, lineNum, pyStrip line, pr.2, sev⟩)

/-- OrionOptimizer._check_performance_patterns on one line. -/
def checkPerformancePatterns (fileP : String) (lineNum : Nat) (line : String) :
    List Finding :=
  checkPatterns performancePatterns "medium" fileP lineNum line

/-- OrionOptimizer._check_security_patterns on one line. -/
def checkSecurityPatterns (fileP : String) (lineNum : Nat) (line : String) :
    List Finding :=
  checkPatterns securityPatterns "high" fileP lineNum line

/-- OrionOptimizer._check_quality_patterns on one line. -/
def checkQualityPatterns (fileP : String) (lineNum : Nat) (line : String) :
    List Finding :=
  checkPatterns qualityPatterns "low" fileP lineNum line

/-- The enumerate(lines, 1) loop of analyze_code_quality: apply a per-line
check to each line with its 1-based number, concatenating the findings in
line order. -/
def classifyLinesWith (check : Nat → String → List Finding) :
    Nat → List String → List Finding
  | _, [] => []
  | n, l :: ls => check n l ++ classifyLinesWith check (n + 1) ls

/-- Performance findings of one file: split its content on newlines and
run the performance check on every line. -/
def classifyFilePerformance (fileP content : String) : List Finding :=
  classifyLinesWith (fun n l => checkPerformancePatterns fileP n l) 1 (pyLines content)

/-- Security findings of one file. -/
def classifyFileSecurity (fileP content : String) : List Finding :=
  classifyLinesWith (fun n l => checkSecurityPatterns fileP n l) 1 (pyLines content)

/-- Quality findings of one file. -/
def classifyFileQuality (fileP content : String) : List Finding :=
  classifyLinesWith (fun n l => checkQualityPatterns fileP n l) 1 (pyLines content)

/-- OrionOptimizer.analyze_code_quality over a fixed enumeration of
(path, content) pairs: every file contributes its findings to the three
category sequences in traversal order. -/
def analyzeCodeQuality (files : List (String × String)) : OptimizationReport :=
  { performance_issues := files.flatMap (fun fc => classifyFilePerformance fc.1 fc.2)
    security_issues := files.flatMap (fun fc => classifyFileSecurity fc.1 fc.2)
    code_issues := files.flatMap (fun fc => classifyFileQuality fc.1 fc.2)
    suggestions := [] }

/-- Pattern of the hotspot loop counter: backslash-b (for|while)
backslash-s* ( -/
def loopCountRe : Re :=
  reSeq [Re.bound, Re.alt (lit "for") (lit "while"), wsStar, chr '(']

/-- Pattern of the hotspot allocation counter: backslash-b
(kmalloc|malloc) backslash-s* ( -/
def mallocCountRe : Re :=
  reSeq [Re.bound, Re.alt (lit "kmalloc") (lit "malloc"), wsStar, chr '(']

/-- Pattern of the hotspot lock counter: backslash-b
(spin_lock|mutex_lock|lock) backslash-s* ( -/
def lockCountRe : Re :=
  reSeq [Re.bound, Re.alt (lit "spin_lock") (Re.alt (lit "mutex_lock") (lit "lock")),
         wsStar, chr '(']

/-- OrionOptimizer._analyze_hotspot_file: count loops, allocations and
locks over the whole file text and emit one suggestion per exceeded
threshold, in source order.  The fileName argument models file_path.name;
the description parameter of the source is unused by its body and omitted. -/
def analyzeHotspotFile (fileName content : String) : List Suggestion :=
  let loop_count := countMatches loopCountRe content
  let malloc_count := countMatches mallocCountRe content
  let lock_count := countMatches lockCountRe content
  (if 10 < loop_count then
    [⟨"performance", fileName ++ ": High loop count (" ++ toString loop_count ++ ")",
      "Review loops for optimization opportunities", "medium"⟩]
   else []) ++
  (if 5 < malloc_count then
    [⟨"performance", fileName ++ ": Many allocations (" ++ toString malloc_count ++ ")",
      "Consider object pooling or pre-allocation", "high"⟩]
   else []) ++
  (if 15 < lock_count then
    [⟨"performance", fileName ++ ": Many locks (" ++ toString lock_count ++ ")",
      "Review for lock contention and consider lock-free alternatives", "high"⟩]
   else [])

/-- Numeric value of one hexadecimal digit character, if any. -/
def hexDigitVal (c : Char) : Option Nat :=
  if c.isDigit then some (c.toNat - 48)
  else if 'a' ≤ c && c ≤ 'f' then some (c.toNat - 87)
  else if 'A' ≤ c && c ≤ 'F' then some (c.toNat - 55)
  else none

/-- Continuation of hexadecimal digit parsing: a single underscore is
permitted only between two digits, as Python literal syntax requires. -/
def hexTail (acc : Nat) : List Char → Option Nat
  | [] => some acc
  | c :: cs =>
    if c = '_' then
      match cs with
      | [] => none
      | d :: ds =>
        match hexDigitVal d with
        | some v => hexTail (16 * acc + v) ds
        | none => none
    else
      match hexDigitVal c with
      | some v => hexTail (16 * acc + v) cs
      | none => none

/-- Parse a nonempty digit run that must begin with a hexadecimal digit. -/
def hexRun : List Char → Option Nat
  | [] => none
  | c :: cs =>
    match hexDigitVal c with
    | some v => hexTail v cs
    | none => none

/-- Digit part after an explicit 0x prefix: Python additionally permits one
underscore directly after the prefix. -/
def hexAfterPrefix : List Char → Option Nat
  | [] => none
  | c :: cs => if c = '_' then hexRun cs else hexRun (c :: cs)

/-- Magnitude of a base-16 integer literal body, after the optional sign:
an optional 0x or 0X prefix followed by digits. -/
def hexBody : List Char → Option Nat
  | '0' :: x :: r =>
    if x = 'x' || x = 'X' then hexAfterPrefix r else hexRun ('0' :: x :: r)
  | cs => hexRun cs

/-- Model of the Python call int(s, 16): surrounding whitespace is
stripped, an optional sign and an optional 0x prefix are accepted, and a
failure to parse yields none (the ValueError branch). -/
def int16 (s : String) : Option Int :=
  let cs := ((s.toList.dropWhile isPySpace).reverse.dropWhile isPySpace).reverse
  match cs with
  | '+' :: r => (hexBody r).map (fun n => (n : Int))
  | '-' :: r => (hexBody r).map (fun n => -(n : Int))
  | r => (hexBody r).map (fun n => (n : Int))

/-- Round the rational n divided by d to the nearest integer, ties to
even, for nonnegative n and positive d: the rounding the Python format
specifier .1f performs on the exactly representable quotients that occur
here. -/
def roundHalfEven (n d : Nat) : Nat :=
  let q := n / d
  let r := n % d
  if 2 * r < d then q
  else if d < 2 * r then q + 1
  else if q % 2 = 0 then q else q + 1

/-- Decimal rendering of n divided by d to one fractional digit, as the
format specifier .1f renders the nonnegative exact quotients occurring in
the report strings. -/
def fmtOneDecimal (n d : Nat) : String :=
  let t := roundHalfEven (10 * n) d
  toString (t / 10) ++ "." ++ toString (t % 10)

/-- Issue text of a large-section suggestion: the f-string
"Large section NAME: SIZEKB" with the size rendered in KiB to one decimal. -/
def largeSectionIssue (name : String) (size : Nat) : String :=
  "Large section " ++ name ++ ": " ++ fmtOneDecimal size 1024 ++ "KB"

/-- Parse of one dump line inside _analyze_elf_sections: a line takes part
only if it contains the marker CONTENTS and splits into at least three
whitespace fields; the second field is the section name and the third a
base-16 size.  A parse failure or a size of at most 1 MiB contributes
nothing. -/
def sectionOfLine (line : String) : Option (String × Int) :=
  if strContains line "CONTENTS" then
    let parts := pySplitWs line
    if 3 ≤ parts.length then
      match int16 (parts.getD 2 "") with
      | some size =>
        if (1024 * 1024 : Int) < size then some (parts.getD 1 "", size) else none
      | none => none
    else none
  else none

/-- OrionOptimizer._analyze_elf_sections on the list of dump lines: collect
the large sections, then emit one medium-impact suggestion per large
section, in line order. -/
def analyzeElfSectionLines (lines : List String) : List Suggestion :=
  (lines.filterMap sectionOfLine).map
    (fun ns => ⟨"binary_size", largeSectionIssue ns.1 ns.2.toNat,
      "Investigate if " ++ ns.1 ++ " can be optimized or compressed", "medium"⟩)

/-- OrionOptimizer._analyze_elf_sections on the raw objdump output string. -/
def analyzeElfSections (objdump_output : String) : List Suggestion :=
  analyzeElfSectionLines (pyLines objdump_output)

/-- Issue text of the oversized-kernel suggestion: the f-string
"Kernel size is large: SIZEMB" with the size rendered in MiB to one
decimal. -/
def kernelSizeIssue (size : Nat) : String :=
  "Kernel size is large: " ++ fmtOneDecimal size (1024 * 1024) ++ "MB"

/-- OrionOptimizer.analyze_binary_size, for a present artifact of the given
byte size: over 10 MiB emits the link-time-optimization suggestion, and the
section dump, when the dump command succeeded, contributes its section
suggestions afterwards. -/
def analyzeBinarySize (kernelSize : Nat) (dump : Option String) : List Suggestion :=
  (if 10 * 1024 * 1024 < kernelSize then
    [⟨"binary_size", kernelSizeIssue kernelSize,
      "Consider enabling link-time optimization (-flto)", "high"⟩]
   else []) ++
  (match dump with
   | some d => analyzeElfSections d
   | none => [])

/-- One full scan session over fixed inputs: classification of every
source file, then binary-size and section analysis, then hotspot analysis
of every hotspot file, accumulated in invocation order as run_optimization
drives it. -/
def runAnalysis (files : List (String × String)) (artifact : Option (Nat × Option String))
    (hotspots : List (String × String)) : OptimizationReport :=
  let base := analyzeCodeQuality files
  { base with
    suggestions :=
      (match artifact with
       | some ks => analyzeBinarySize ks.1 ks.2
       | none => []) ++
      hotspots.flatMap (fun fc => analyzeHotspotFile fc.1 fc.2) }

/-- Headline TODO count of generate_optimization_report: quality findings
whose stored line text contains TODO. -/
def todoCount (r : OptimizationReport) : Nat :=
  r.code_issues.countP (fun f => strContains f.issue "TODO")

/-- Headline FIXME count: quality findings whose stored line text contains
FIXME. -/
def fixmeCount (r : OptimizationReport) : Nat :=
  r.code_issues.countP (fun f => strContains f.issue "FIXME")

/-- Headline other-issues count: total quality findings minus the TODO and
FIXME counts, an integer subtraction as in the source. -/
def otherCount (r : OptimizationReport) : Int :=
  (r.code_issues.length : Int) - todoCount r - fixmeCount r

/-- Total finding count across the three categories. -/
def totalIssues (r : OptimizationReport) : Nat :=
  r.performance_issues.length + r.security_issues.length + r.code_issues.length

/-- The three mutually exclusive final verdicts of the report. -/
inductive Verdict where
  /-- excellent code quality, no major issues found -/
  | excellent
  /-- security looks good, review the remaining issues -/
  | securityLooksGood
  /-- security issues need attention before deployment -/
  | needsAttention
deriving DecidableEq, Repr

/-- Verdict synthesis of generate_optimization_report: zero total findings
is excellent; otherwise zero security findings is the security-looks-good
verdict; otherwise attention is required. -/
def verdict (r : OptimizationReport) : Verdict :=
  if totalIssues r = 0 then .excellent
  else if r.security_issues.length = 0 then .securityLooksGood
  else .needsAttention

/-!
Helper lemmas about the classifier and the splitters.
-/

/-- Structure of every finding the per-line check produces: the fixed
severity of its table, the stripped line as stored text, and the given
file and line number. -/
theorem mem_checkPatterns {pats : List (Re × String)} {sev fileP : String}
    {n : Nat} {line : String} {f : Finding}
    (h : f ∈ checkPatterns pats sev fileP n line) :
    f.severity = sev ∧ f.issue = pyStrip line ∧ f.file = fileP ∧ f.line = n := by
  simp only [checkPatterns, List.mem_map] at h
  obtain ⟨pr, _, rfl⟩ := h
  exact ⟨rfl, rfl, rfl, rfl⟩

/-- Every finding of the per-file loop comes from the per-line check on
some line number and line. -/
theorem mem_classifyLinesWith {check : Nat → String → List Finding} :
    ∀ {n : Nat} {ls : List String} {f : Finding},
      f ∈ classifyLinesWith check n ls → ∃ m l, f ∈ check m l := by
  intro n ls
  induction ls generalizing n with
  | nil => intro f h; simp [classifyLinesWith] at h
  | cons a as ih =>
    intro f h
    rcases List.mem_append.mp h with h | h
    · exact ⟨n, a, h⟩
    · exact ih h

/-- Findings of the line at index i (0-based) appear in the per-file loop
started at number n, as findings of line number n + i. -/
theorem classifyLinesWith_mem {check : Nat → String → List Finding} :
    ∀ {ls : List String} {i : Nat} {a : String} (n : Nat),
      ls.get? i = some a → ∀ {f : Finding}, f ∈ check (n + i) a →
      f ∈ classifyLinesWith check n ls := by
  intro ls
  induction ls with
  | nil => intro i a n h; simp at h
  | cons x xs ih =>
    intro i a n h f hf
    cases i with
    | zero =>
      simp only [List.get?] at h
      cases h
      exact List.mem_append.mpr (Or.inl hf)
    | succ j =>
      simp only [List.get?] at h
      refine List.mem_append.mpr (Or.inr (ih (n + 1) h ?_))
      have : n + 1 + j = n + (j + 1) := by omega
      rw [this]
      exact hf

/-- Two rules of one table that both match a line yield the corresponding
two findings, in rule order, within the check result. -/
theorem checkPatterns_sublist {pats : List (Re × String)} {sev fileP : String}
    {n : Nat} {line : String} {p q : Re × String}
    (hsub : [p, q].Sublist pats)
    (hp : reSearch p.1 (pyStrip line) = true)
    (hq : reSearch q.1 (pyStrip line) = true) :
    ([⟨fileP, n, pyStrip line, p.2, sev⟩, ⟨fileP, n, pyStrip line, q.2, sev⟩] :
      List Finding).Sublist (checkPatterns pats sev fileP n line) := by
  have h1 := (hsub.filter (fun pr => reSearch pr.1 (pyStrip line))).map
    (fun pr => (⟨fileP, n, pyStrip line, pr.2, sev⟩ : Finding))
  have h2 : List.filter (fun pr => reSearch pr.1 (pyStrip line)) [p, q] = [p, q] := by
    simp [List.filter, hp, hq]
  rw [h2] at h1
  exact h1

/-- Splitting a list without separator characters yields the single piece. -/
theorem splitOnPred_single {p : Char → Bool} :
    ∀ {l : List Char}, (∀ c ∈ l, p c = false) → splitOnPred p l = [l] := by
  intro l
  induction l with
  | nil => intro _; rfl
  | cons x xs ih =>
    intro h
    have hx : p x = false := h x (List.mem_cons_self x xs)
    have hr := ih (fun c hc => h c (List.mem_cons_of_mem x hc))
    simp [splitOnPred, hx, hr]

/-- Splitting at the first separator occurrence detaches the leading piece. -/
theorem splitOnPred_append {p : Char → Bool} {c0 : Char} (hc : p c0 = true) :
    ∀ {l1 l2 : List Char}, (∀ c ∈ l1, p c = false) →
      splitOnPred p (l1 ++ c0 :: l2) = l1 :: splitOnPred p l2 := by
  intro l1
  induction l1 with
  | nil =>
    intro l2 _
    simp [splitOnPred, hc]
  | cons x xs ih =>
    intro l2 h
    have hx : p x = false := h x (List.mem_cons_self x xs)
    have hr := @ih l2 (fun c hcm => h c (List.mem_cons_of_mem x hcm))
    simp only [List.cons_append, splitOnPred, hx, Bool.false_eq_true, if_false,
      List.append_eq, hr]

/-- Splitting the concatenation of two newline-free lines around a newline
recovers exactly the two lines. -/
theorem pyLines_pair {l1 l2 : String}
    (h1 : '\n' ∉ l1.toList) (h2 : '\n' ∉ l2.toList) :
    pyLines (l1 ++ "\n" ++ l2) = [l1, l2] := by
  have hdata : (l1 ++ "\n" ++ l2).toList = l1.toList ++ '\n' :: l2.toList := by
    show (l1 ++ "\n" ++ l2).data = l1.data ++ '\n' :: l2.data
    rw [String.data_append, String.data_append, List.append_assoc]
    rfl
  have hne1 : ∀ c ∈ l1.toList, (decide (c = '\n')) = false := by
    intro c hcm
    apply decide_eq_false
    intro e
    exact h1 (e ▸ hcm)
  have hne2 : ∀ c ∈ l2.toList, (decide (c = '\n')) = false := by
    intro c hcm
    apply decide_eq_false
    intro e
    exact h2 (e ▸ hcm)
  unfold pyLines
  rw [hdata, splitOnPred_append (by simp) hne1, splitOnPred_single hne2]
  show [String.mk l1.data, String.mk l2.data] = [l1, l2]
  rfl

/-!
Claim theorems.
-/

/-- Claim C1: the report synthesizer produces exactly one of three
mutually exclusive verdicts, in this precedence: zero total findings gives
the excellent verdict; otherwise zero security findings gives the
security-looks-good verdict; otherwise the needs-attention verdict.  In
particular any report with a nonzero finding total and no security finding
gets the second verdict, and any report with a security finding gets the
third, regardless of the other counts. -/
theorem verdict_precedence (r : OptimizationReport) :
    (totalIssues r = 0 → verdict r = .excellent) ∧
    (r.security_issues.length = 0 → 0 < totalIssues r → verdict r = .securityLooksGood) ∧
    (0 < r.security_issues.length → verdict r = .needsAttention) := by
  refine ⟨fun h => by simp [verdict, h], fun hs ht => ?_, fun hs => ?_⟩
  · have h1 : ¬ totalIssues r = 0 := by omega
    simp [verdict, h1, hs]
  · have h1 : ¬ totalIssues r = 0 := by
      unfold totalIssues
      omega
    have h2 : ¬ r.security_issues.length = 0 := by omega
    simp [verdict, h1, h2]

/-- Witness for C1: the three verdicts at concrete reports, one per
precedence branch. -/
theorem verdict_precedence_witness :
    verdict ⟨[], [], [], []⟩ = .excellent ∧
    verdict ⟨[], [⟨"a.c", 1, "while(1)", "Infinite loop detected - ensure proper exit conditions", "medium"⟩], [], []⟩ = .securityLooksGood ∧
    verdict ⟨[], [], [⟨"a.c", 1, "gets(x)", "gets() is unsafe, use fgets()", "high"⟩], []⟩ = .needsAttention :=
  ⟨(verdict_precedence ⟨[], [], [], []⟩).1 (by decide),
   (verdict_precedence _).2.1 (by decide) (by decide),
   (verdict_precedence _).2.2 (by decide)⟩

/-- Claim C2: severity is fixed per category: in every report the
classifier can produce, security findings have severity high, performance
findings severity medium and quality findings severity low, regardless of
which rule matched. -/
theorem severity_fixed_by_category (files : List (String × String)) (f : Finding) :
    (f ∈ (analyzeCodeQuality files).security_issues → f.severity = "high") ∧
    (f ∈ (analyzeCodeQuality files).performance_issues → f.severity = "medium") ∧
    (f ∈ (analyzeCodeQuality files).code_issues → f.severity = "low") := by
  refine ⟨fun h => ?_, fun h => ?_, fun h => ?_⟩
  · simp only [analyzeCodeQuality, classifyFileSecurity, List.mem_flatMap] at h
    obtain ⟨fc, _, hf⟩ := h
    obtain ⟨m, l, hm⟩ := mem_classifyLinesWith hf
    exact (mem_checkPatterns hm).1
  · simp only [analyzeCodeQuality, classifyFilePerformance, List.mem_flatMap] at h
    obtain ⟨fc, _, hf⟩ := h
    obtain ⟨m, l, hm⟩ := mem_classifyLinesWith hf
    exact (mem_checkPatterns hm).1
  · simp only [analyzeCodeQuality, classifyFileQuality, List.mem_flatMap] at h
    obtain ⟨fc, _, hf⟩ := h
    obtain ⟨m, l, hm⟩ := mem_classifyLinesWith hf
    exact (mem_checkPatterns hm).1

/-- Witness for C2: a concrete scan containing one finding of each
category, with the three fixed severities. -/
theorem severity_fixed_by_category_witness :
    ((⟨"a.c", 1, "gets(x)", "gets() is unsafe, use fgets()", "high"⟩ : Finding) ∈
      (analyzeCodeQuality [("a.c", "gets(x)\nwhile(1)\n// TODO x")]).security_issues ∧
     (⟨"a.c", 1, "gets(x)", "gets() is unsafe, use fgets()", "high"⟩ : Finding).severity = "high") ∧
    ((⟨"a.c", 2, "while(1)", "Infinite loop detected - ensure proper exit conditions", "medium"⟩ : Finding) ∈
      (analyzeCodeQuality [("a.c", "gets(x)\nwhile(1)\n// TODO x")]).performance_issues ∧
     (⟨"a.c", 2, "while(1)", "Infinite loop detected - ensure proper exit conditions", "medium"⟩ : Finding).severity = "medium") ∧
    ((⟨"a.c", 3, "// TODO x", "TODO comment found", "low"⟩ : Finding) ∈
      (analyzeCodeQuality [("a.c", "gets(x)\nwhile(1)\n// TODO x")]).code_issues ∧
     (⟨"a.c", 3, "// TODO x", "TODO comment found", "low"⟩ : Finding).severity = "low") :=
  ⟨⟨by decide, (severity_fixed_by_category [("a.c", "gets(x)\nwhile(1)\n// TODO x")] _).1 (by decide)⟩,
   ⟨by decide, (severity_fixed_by_category [("a.c", "gets(x)\nwhile(1)\n// TODO x")] _).2.1 (by decide)⟩,
   ⟨by decide, (severity_fixed_by_category [("a.c", "gets(x)\nwhile(1)\n// TODO x")] _).2.2 (by decide)⟩⟩

/-- Counterexample for C3: the synthesizer counts the marker TODO in the
stored line text, not in the advisory text; on a line that matches both
the TODO rule and the magic-number rule the two counts differ, so the
claim as stated is false. -/
theorem headline_counts_cex :
    todoCount (analyzeCodeQuality [("a.c", "x = (0x1F); // TODO later")]) ≠
      (analyzeCodeQuality [("a.c", "x = (0x1F); // TODO later")]).code_issues.countP
        (fun f => strContains f.suggestion "TODO") := by
  decide

/-- Claim C3 as amended: the headline TODO and FIXME counts tally the
quality findings whose stored line text contains the marker, and the
other count is the total quality finding count minus those two tallies,
as an integer. -/
theorem headline_counts_amended (r : OptimizationReport) :
    todoCount r = (r.code_issues.filter (fun f => strContains f.issue "TODO")).length ∧
    fixmeCount r = (r.code_issues.filter (fun f => strContains f.issue "FIXME")).length ∧
    otherCount r = (r.code_issues.length : Int) - todoCount r - fixmeCount r := by
  refine ⟨?_, ?_, rfl⟩ <;>
    simp [todoCount, fixmeCount, List.countP_eq_length_filter]

/-- Counterexample for C4: the classifier stores the stripped line, not
the verbatim line: on a line with leading whitespace the stored text
differs from the original line. -/
theorem raw_text_cex :
    checkSecurityPatterns "a.c" 1 "    gets(buffer);" =
      [⟨"a.c", 1, "gets(buffer);", "gets() is unsafe, use fgets()", "high"⟩] ∧
    ¬ ("gets(buffer);" = "    gets(buffer);") := by
  decide

/-- Claim C4 as amended: for every rule match, the Finding records as its
stored text the offending line after stripping leading and trailing
whitespace. -/
theorem raw_text_amended (fileP : String) (n : Nat) (line : String) (f : Finding)
    (h : f ∈ checkPerformancePatterns fileP n line ∨
         f ∈ checkSecurityPatterns fileP n line ∨
         f ∈ checkQualityPatterns fileP n line) :
    f.issue = pyStrip line := by
  rcases h with h | h | h <;> exact (mem_checkPatterns h).2.1

/-- Witness for C4 as amended: the stored text of the finding on a line
with leading whitespace is its stripped form. -/
theorem raw_text_amended_witness :
    ((⟨"a.c", 1, "gets(buffer);", "gets() is unsafe, use fgets()", "high"⟩ : Finding) ∈
      checkPerformancePatterns "a.c" 1 "    gets(buffer);" ∨
     (⟨"a.c", 1, "gets(buffer);", "gets() is unsafe, use fgets()", "high"⟩ : Finding) ∈
      checkSecurityPatterns "a.c" 1 "    gets(buffer);" ∨
     (⟨"a.c", 1, "gets(buffer);", "gets() is unsafe, use fgets()", "high"⟩ : Finding) ∈
      checkQualityPatterns "a.c" 1 "    gets(buffer);") ∧
    (⟨"a.c", 1, "gets(buffer);", "gets() is unsafe, use fgets()", "high"⟩ : Finding).issue =
      pyStrip "    gets(buffer);" :=
  ⟨Or.inr (Or.inl (by decide)),
   raw_text_amended "a.c" 1 "    gets(buffer);" _ (Or.inr (Or.inl (by decide)))⟩

/-- Restriction of the hotspot output to the loop-density suggestion: it
is present exactly when the loop count exceeds 10. -/
theorem hotspot_loop_filter (name content : String) :
    (analyzeHotspotFile name content).filter
      (fun s => s.suggestion = "Review loops for optimization opportunities") =
    (if 10 < countMatches loopCountRe content then
      [⟨"performance",
        name ++ ": High loop count (" ++ toString (countMatches loopCountRe content) ++ ")",
        "Review loops for optimization opportunities", "medium"⟩]
     else []) := by
  simp only [analyzeHotspotFile, List.filter_append]
  split_ifs <;> simp [List.filter]

/-- Restriction of the hotspot output to the allocation suggestion: it is
present exactly when the allocation count exceeds 5. -/
theorem hotspot_malloc_filter (name content : String) :
    (analyzeHotspotFile name content).filter
      (fun s => s.suggestion = "Consider object pooling or pre-allocation") =
    (if 5 < countMatches mallocCountRe content then
      [⟨"performance",
        name ++ ": Many allocations (" ++ toString (countMatches mallocCountRe content) ++ ")",
        "Consider object pooling or pre-allocation", "high"⟩]
     else []) := by
  simp only [analyzeHotspotFile, List.filter_append]
  split_ifs <;> simp [List.filter]

/-- Restriction of the hotspot output to the lock suggestion: it is
present exactly when the lock count exceeds 15. -/
theorem hotspot_lock_filter (name content : String) :
    (analyzeHotspotFile name content).filter
      (fun s => s.suggestion = "Review for lock contention and consider lock-free alternatives") =
    (if 15 < countMatches lockCountRe content then
      [⟨"performance",
        name ++ ": Many locks (" ++ toString (countMatches lockCountRe content) ++ ")",
        "Review for lock contention and consider lock-free alternatives", "high"⟩]
     else []) := by
  simp only [analyzeHotspotFile, List.filter_append]
  split_ifs <;> simp [List.filter]

/-- Claim C5: the hotspot density thresholds are strict and independent: a
file with exactly 10 counted loop constructs yields no loop-density
suggestion and one with exactly 11 yields exactly one, of medium impact;
the allocation suggestion appears exactly when the allocation count
strictly exceeds 5, and the lock suggestion exactly when the lock count
strictly exceeds 15. -/
theorem hotspot_thresholds (name content : String) :
    (countMatches loopCountRe content = 10 →
      (analyzeHotspotFile name content).filter
        (fun s => s.suggestion = "Review loops for optimization opportunities") = []) ∧
    (countMatches loopCountRe content = 11 →
      (analyzeHotspotFile name content).filter
        (fun s => s.suggestion = "Review loops for optimization opportunities") =
      [⟨"performance", name ++ ": High loop count (" ++ toString (11 : Nat) ++ ")",
        "Review loops for optimization opportunities", "medium"⟩]) ∧
    ((analyzeHotspotFile name content).filter
        (fun s => s.suggestion = "Consider object pooling or pre-allocation") ≠ [] ↔
      5 < countMatches mallocCountRe content) ∧
    ((analyzeHotspotFile name content).filter
        (fun s => s.suggestion = "Review for lock contention and consider lock-free alternatives") ≠ [] ↔
      15 < countMatches lockCountRe content) := by
  refine ⟨fun h10 => ?_, fun h11 => ?_, ?_, ?_⟩
  · rw [hotspot_loop_filter, h10]
    simp
  · rw [hotspot_loop_filter, h11]
    simp
  · rw [hotspot_malloc_filter]
    split_ifs with h <;> simp [h]
  · rw [hotspot_lock_filter]
    split_ifs with h <;> simp [h]

/-- Witness for C5: ten loop constructs yield no loop-density suggestion;
eleven yield exactly the medium-impact one. -/
theorem hotspot_thresholds_witness :
    (analyzeHotspotFile "scheduler.c" (String.join (List.replicate 10 "for("))).filter
      (fun s => s.suggestion = "Review loops for optimization opportunities") = [] ∧
    (analyzeHotspotFile "scheduler.c" (String.join (List.replicate 11 "for("))).filter
      (fun s => s.suggestion = "Review loops for optimization opportunities") =
    [⟨"performance", "scheduler.c" ++ ": High loop count (" ++ toString (11 : Nat) ++ ")",
      "Review loops for optimization opportunities", "medium"⟩] :=
  ⟨(hotspot_thresholds "scheduler.c" _).1 (by decide),
   (hotspot_thresholds "scheduler.c" _).2.1 (by decide)⟩

/-- Claim C6: a file whose 42nd line is the text consisting of four spaces
followed by gets(buffer); yields a security finding with line number 42,
an advisory containing the gets remediation text, and severity high. -/
theorem gets_line_classified (fileP content : String)
    (h : (pyLines content).get? 41 = some "    gets(buffer);") :
    ∃ f, f ∈ classifyFileSecurity fileP content ∧ f.line = 42 ∧
      strContains f.suggestion "gets() is unsafe, use fgets()" = true ∧
      f.severity = "high" := by
  refine ⟨⟨fileP, 42, "gets(buffer);", "gets() is unsafe, use fgets()", "high"⟩,
    ?_, rfl, rfl, rfl⟩
  unfold classifyFileSecurity
  refine classifyLinesWith_mem 1 h ?_
  show (⟨fileP, 42, "gets(buffer);", "gets() is unsafe, use fgets()", "high"⟩ : Finding) ∈
    checkSecurityPatterns fileP (1 + 41) "    gets(buffer);"
  have he : checkSecurityPatterns fileP (1 + 41) "    gets(buffer);" =
      [⟨fileP, 42, "gets(buffer);", "gets() is unsafe, use fgets()", "high"⟩] := rfl
  rw [he]
  exact List.mem_singleton_self _

/-- Witness for C6: a concrete file of 41 empty lines followed by the
gets line, scanned end to end. -/
theorem gets_line_classified_witness :
    (pyLines (String.mk (List.replicate 41 '\n') ++ "    gets(buffer);")).get? 41 =
      some "    gets(buffer);" ∧
    ∃ f, f ∈ classifyFileSecurity "kernel/core/main.c"
        (String.mk (List.replicate 41 '\n') ++ "    gets(buffer);") ∧ f.line = 42 ∧
      strContains f.suggestion "gets() is unsafe, use fgets()" = true ∧
      f.severity = "high" :=
  ⟨by decide, gets_line_classified "kernel/core/main.c" _ (by decide)⟩

/-- Claim C7: the section analyzer never aborts on malformed input: a dump
of one well-formed marker line of hexadecimal size 2 MiB and one marker
line whose size field does not parse (or that lacks fields) yields, in
either order, exactly the one medium-impact suggestion for the well-formed
section; the unparsable line contributes nothing. -/
theorem elf_malformed_resilience (l1 l2 name : String)
    (h1n : '\n' ∉ l1.toList) (h2n : '\n' ∉ l2.toList)
    (h1m : strContains l1 "CONTENTS" = true)
    (h1len : 3 ≤ (pySplitWs l1).length)
    (h1name : (pySplitWs l1).getD 1 "" = name)
    (h1size : int16 ((pySplitWs l1).getD 2 "") = some 2097152)
    (h2m : strContains l2 "CONTENTS" = true)
    (h2bad : (pySplitWs l2).length < 3 ∨ int16 ((pySplitWs l2).getD 2 "") = none) :
    analyzeElfSections (l1 ++ "\n" ++ l2) =
      [⟨"binary_size", largeSectionIssue name 2097152,
        "Investigate if " ++ name ++ " can be optimized or compressed", "medium"⟩] ∧
    analyzeElfSections (l2 ++ "\n" ++ l1) =
      [⟨"binary_size", largeSectionIssue name 2097152,
        "Investigate if " ++ name ++ " can be optimized or compressed", "medium"⟩] := by
  have hs1 : sectionOfLine l1 = some (name, 2097152) := by
    unfold sectionOfLine
    rw [if_pos h1m, if_pos h1len, h1size, h1name]
    rfl
  have hs2 : sectionOfLine l2 = none := by
    unfold sectionOfLine
    rw [if_pos h2m]
    by_cases hl : 3 ≤ (pySplitWs l2).length
    · rw [if_pos hl]
      rcases h2bad with h | h
      · exact absurd hl (by omega)
      · rw [h]
    · rw [if_neg hl]
  constructor
  · unfold analyzeElfSections
    rw [pyLines_pair h1n h2n]
    simp [analyzeElfSectionLines, hs1, hs2, largeSectionIssue]
  · unfold analyzeElfSections
    rw [pyLines_pair h2n h1n]
    simp [analyzeElfSectionLines, hs1, hs2, largeSectionIssue]

/-- Witness for C7: a concrete two-line dump with one well-formed 2 MiB
section and one line whose size field is not hexadecimal. -/
theorem elf_malformed_resilience_witness :
    analyzeElfSections ("  1 .data 200000 0 CONTENTS" ++ "\n" ++ "  2 .bss zz 0 CONTENTS") =
      [⟨"binary_size", largeSectionIssue ".data" 2097152,
        "Investigate if " ++ ".data" ++ " can be optimized or compressed", "medium"⟩] ∧
    analyzeElfSections ("  2 .bss zz 0 CONTENTS" ++ "\n" ++ "  1 .data 200000 0 CONTENTS") =
      [⟨"binary_size", largeSectionIssue ".data" 2097152,
        "Investigate if " ++ ".data" ++ " can be optimized or compressed", "medium"⟩] :=
  elf_malformed_resilience "  1 .data 200000 0 CONTENTS" "  2 .bss zz 0 CONTENTS" ".data"
    (by decide) (by decide) (by decide) (by decide) (by decide) (by decide) (by decide)
    (Or.inr (by decide))

/-- Claim C8: rules within a category do not short-circuit each other: a
line matching two distinct rules of the same rule table produces the two
corresponding findings, one per rule and in rule order, in each of the
three categories. -/
theorem rule_independence (fileP : String) (n : Nat) (line : String) (p q : Re × String) :
    ([p, q].Sublist performancePatterns →
      reSearch p.1 (pyStrip line) = true → reSearch q.1 (pyStrip line) = true →
      ([⟨fileP, n, pyStrip line, p.2, "medium"⟩,
        ⟨fileP, n, pyStrip line, q.2, "medium"⟩] : List Finding).Sublist
        (checkPerformancePatterns fileP n line)) ∧
    ([p, q].Sublist securityPatterns →
      reSearch p.1 (pyStrip line) = true → reSearch q.1 (pyStrip line) = true →
      ([⟨fileP, n, pyStrip line, p.2, "high"⟩,
        ⟨fileP, n, pyStrip line, q.2, "high"⟩] : List Finding).Sublist
        (checkSecurityPatterns fileP n line)) ∧
    ([p, q].Sublist qualityPatterns →
      reSearch p.1 (pyStrip line) = true → reSearch q.1 (pyStrip line) = true →
      ([⟨fileP, n, pyStrip line, p.2, "low"⟩,
        ⟨fileP, n, pyStrip line, q.2, "low"⟩] : List Finding).Sublist
        (checkQualityPatterns fileP n line)) :=
  ⟨fun hs hp hq => checkPatterns_sublist hs hp hq,
   fun hs hp hq => checkPatterns_sublist hs hp hq,
   fun hs hp hq => checkPatterns_sublist hs hp hq⟩

/-- Witness for C8: one line matching both the sprintf rule and the strcpy
rule of the performance table yields both findings, in rule order. -/
theorem rule_independence_witness :
    [(perfRe2, "sprintf is unsafe, use snprintf"),
     (perfRe3, "strcpy is unsafe, use strncpy")].Sublist performancePatterns ∧
    ([⟨"a.c", 7, pyStrip "sprintf(buf); strcpy(a, b);", "sprintf is unsafe, use snprintf", "medium"⟩,
      ⟨"a.c", 7, pyStrip "sprintf(buf); strcpy(a, b);", "strcpy is unsafe, use strncpy", "medium"⟩] :
      List Finding).Sublist (checkPerformancePatterns "a.c" 7 "sprintf(buf); strcpy(a, b);") :=
  ⟨by decide,
   (rule_independence "a.c" 7 "sprintf(buf); strcpy(a, b);"
      (perfRe2, "sprintf is unsafe, use snprintf")
      (perfRe3, "strcpy is unsafe, use strncpy")).1
    (by decide) (by decide) (by decide)⟩

/-- Claim C9: the engine is deterministic: for equal sequences of file
contents, equal artifact data and equal hotspot inputs, two runs produce
equal reports, hence identical finding sequences and identical suggestion
sequences, element for element. -/
theorem scan_deterministic (files files2 : List (String × String))
    (artifact artifact2 : Option (Nat × Option String))
    (hotspots hotspots2 : List (String × String))
    (hf : files = files2) (ha : artifact = artifact2) (hh : hotspots = hotspots2) :
    runAnalysis files artifact hotspots = runAnalysis files2 artifact2 hotspots2 ∧
    (runAnalysis files artifact hotspots).performance_issues =
      (runAnalysis files2 artifact2 hotspots2).performance_issues ∧
    (runAnalysis files artifact hotspots).security_issues =
      (runAnalysis files2 artifact2 hotspots2).security_issues ∧
    (runAnalysis files artifact hotspots).code_issues =
      (runAnalysis files2 artifact2 hotspots2).code_issues ∧
    (runAnalysis files artifact hotspots).suggestions =
      (runAnalysis files2 artifact2 hotspots2).suggestions := by
  subst hf
  subst ha
  subst hh
  exact ⟨rfl, rfl, rfl, rfl, rfl⟩

/-- Witness for C9: two runs over one concrete input set coincide. -/
theorem scan_deterministic_witness :
    runAnalysis [("a.c", "gets(x)")] (some (11534336, some "  1 .data 200000 0 CONTENTS"))
        [("mm.c", "for(")] =
      runAnalysis [("a.c", "gets(x)")] (some (11534336, some "  1 .data 200000 0 CONTENTS"))
        [("mm.c", "for(")] :=
  (scan_deterministic _ _ _ _ _ _ rfl rfl rfl).1

/-- Claim C10: the other-issues count can go negative: on a file whose one
line contains both markers, the TODO and FIXME tallies each count both
quality findings, so the reported remainder is strictly negative. -/
theorem other_count_negative :
    todoCount (analyzeCodeQuality [("a.c", "// TODO FIXME")]) = 2 ∧
    fixmeCount (analyzeCodeQuality [("a.c", "// TODO FIXME")]) = 2 ∧
    (analyzeCodeQuality [("a.c", "// TODO FIXME")]).code_issues.length = 2 ∧
    otherCount (analyzeCodeQuality [("a.c", "// TODO FIXME")]) < 0 := by
  decide

end Orion
